import Mathlib

/-!
Shallow embedding of `telegram_bot.py` (SofardWorkbot): the `handle_message`
pipeline — voice transcription, field extraction via a language-model call,
JSON parsing, ledger (spreadsheet) append, and reply construction.

External effects are modelled as an `Env` record supplied to the handler:
the outcome of the language-model call, the semantics of `json.loads`
(an abstract decode function), whether the spreadsheet append succeeds,
and the formatted current timestamp.  The handler returns an `Effects`
record listing the observable actions it performed, in program order.
-/

/-- A decoded Python value produced by `json.loads` (JSON abstract syntax).
Numbers are modelled as integers, which covers all values the claims use. -/
inductive Json where
  | null : Json
  | bool : Bool → Json
  | num : Int → Json
  | str : String → Json
  | arr : List Json → Json
  | obj : List (String × Json) → Json

mutual

/-- Python `repr` of a decoded JSON value (used by `str` on containers). -/
def pyRepr : Json → String
  | Json.null => "None"
  | Json.bool true => "True"
  | Json.bool false => "False"
  | Json.num n => toString n
  | Json.str s => "\x27" ++ s ++ "\x27"
  | Json.arr xs => "[" ++ pyReprList xs ++ "]"
  | Json.obj kvs => "\x7b" ++ pyReprObj kvs ++ "\x7d"

/-- Comma-separated `repr`s of the elements of a Python list. -/
def pyReprList : List Json → String
  | [] => ""
  | [x] => pyRepr x
  | x :: xs => pyRepr x ++ ", " ++ pyReprList xs

/-- Comma-separated `key: value` pairs of a Python dict. -/
def pyReprObj : List (String × Json) → String
  | [] => ""
  | [kv] => "\x27" ++ kv.fst ++ "\x27" ++ ": " ++ pyRepr kv.snd
  | kv :: kvs => "\x27" ++ kv.fst ++ "\x27" ++ ": " ++ pyRepr kv.snd ++ ", " ++ pyReprObj kvs

end

/-- Python `str` of a decoded JSON value, as used by f-string interpolation
(`f"💬 {description}"` etc. in lines 131–137 of the source). -/
def pyStr : Json → String
  | Json.str s => s
  | v => pyRepr v

/-- Python `dict.get(key, default)` on a decoded JSON object. -/
def dictGet (kvs : List (String × Json)) (key : String) (default : Json) : Json :=
  match kvs.find? (fun kv => kv.fst == key) with
  | some kv => kv.snd
  | none => default

/-- One element of `response.results[i].alternatives` from the speech API. -/
structure SpeechAlternative where
  transcript : String

/-- One element of `response.results` from the speech API. -/
structure SpeechResult where
  alternatives : List SpeechAlternative

/-- `transcribe_audio` (source lines 47–61): returns the transcript of the
first alternative of the first result, or `None` if there are no results.
`result.alternatives[0]` on an empty alternatives list raises `IndexError`,
which propagates to the caller (modelled as `Except.error`). -/
def transcribe_audio (results : List SpeechResult) : Except String (Option String) :=
  match results with
  | [] => Except.ok none
  | r :: _ =>
    match r.alternatives with
    | [] => Except.error "IndexError"
    | a :: _ => Except.ok (some a.transcript)

/-- The four extracted fields of an Entry, in source order (lines 117–120
and 123).  Field values are decoded Python values: in the fallback branches
they are strings, but a JSON-object reply can supply any JSON value. -/
structure Entry where
  description : Json
  client_name : Json
  time_spent : Json
  amount : Json

/-- Source lines 117–120: `data.get(key, '-')` for the four keys.  Python
raises `AttributeError` when `data` is not a dict (list, string, number,
bool or `None` have no `.get`); that exception is caught by the outer
`except Exception` on line 121. -/
def extract_fields (data : Json) : Except String Entry :=
  match data with
  | Json.obj kvs =>
    Except.ok
      { description := dictGet kvs "description" (Json.str "-")
        client_name := dictGet kvs "client" (Json.str "-")
        time_spent := dictGet kvs "time_spent" (Json.str "-")
        amount := dictGet kvs "amount" (Json.str "-") }
  | _ => Except.error "AttributeError"

/-- The environment of one `handle_message` run: outcomes of the external
calls it makes.  `loads` is the semantics of `json.loads` (`none` means the
argument is not valid JSON, i.e. `json.loads` raises `JSONDecodeError`);
`llm` is the language-model call outcome (`Except.error` when the call
raises); `appendOk` is whether `worksheet.append_row` succeeds (`false`
means it raises `gspread.exceptions.APIError`); `now` is the formatted
current Kiev-timezone timestamp. -/
structure Env where
  loads : String → Option Json
  llm : Except String String
  appendOk : Bool
  now : String

/-- The observable effects of one `handle_message` run, in program order.
`llmCalled` records whether the language-model call was attempted;
`appendCalls` lists the rows passed to `worksheet.append_row`;
`replies` lists the texts sent with `update.message.reply_text`;
`raised` is the uncaught exception terminating the handler, if any. -/
structure Effects where
  llmCalled : Bool
  appendCalls : List (List Json)
  replies : List String
  raised : Option String

/-- Source lines 80–123: call the language model and extract the four
fields.  On a reply that is not valid JSON, lines 113–115 substitute the
dict `{description: reply, client: "-", time_spent: "-", amount: "-"}`.
Any exception inside the `try` (the call itself failing, or `.get` raising
`AttributeError` on a non-dict decode) falls to line 123, which uses the
raw user message as the description with the sentinel elsewhere. -/
def extractRecord (env : Env) (user_message : String) : Entry :=
  match env.llm with
  | Except.error _ =>
    { description := Json.str user_message, client_name := Json.str "-"
      time_spent := Json.str "-", amount := Json.str "-" }
  | Except.ok chatgpt_response =>
    let data : Json :=
      match env.loads chatgpt_response with
      | some j => j
      | none =>
        Json.obj [("description", Json.str chatgpt_response), ("client", Json.str "-"),
                  ("time_spent", Json.str "-"), ("amount", Json.str "-")]
    match extract_fields data with
    | Except.ok e => e
    | Except.error _ =>
      { description := Json.str user_message, client_name := Json.str "-"
        time_spent := Json.str "-", amount := Json.str "-" }

/-- The condition `v != '-' and v.strip()` of source lines 133 and 136.
Python evaluates `v != '-'` first (false exactly when `v` is the string
`"-"`, short-circuiting); otherwise `v.strip()` raises `AttributeError`
unless `v` is a string, and a stripped string is truthy iff non-empty. -/
def stripCheck (v : Json) : Except String Bool :=
  match v with
  | Json.str s => if s = "-" then Except.ok false else Except.ok (s.trim != "")
  | _ => Except.error "AttributeError"

/-- Source lines 126–142: build the row, call `worksheet.append_row`, and
on success build and send the confirmation reply; on `APIError` send the
fixed error string.  An `AttributeError` from `.strip()` while building the
reply is not a `gspread.exceptions.APIError`, so it escapes the handler
after the row was already appended. -/
def ledgerStep (env : Env) (e : Entry) : Effects :=
  let current_datetime := env.now
  let row := [Json.str current_datetime, e.description, e.client_name, e.time_spent, e.amount]
  if env.appendOk then
    let reply0 := "📆 " ++ current_datetime ++ "\n💬 " ++ pyStr e.description ++
      "\n🧑‍💼 " ++ pyStr e.client_name
    match stripCheck e.time_spent with
    | Except.error ex =>
      { llmCalled := true, appendCalls := [row], replies := [], raised := some ex }
    | Except.ok bt =>
      let reply1 := if bt then reply0 ++ "\n🕝 " ++ pyStr e.time_spent else reply0
      match stripCheck e.amount with
      | Except.error ex =>
        { llmCalled := true, appendCalls := [row], replies := [], raised := some ex }
      | Except.ok ba =>
        let reply2 := if ba then reply1 ++ "\n💰 " ++ pyStr e.amount else reply1
        { llmCalled := true, appendCalls := [row], replies := [reply2], raised := none }
  else
    { llmCalled := true, appendCalls := [row],
      replies := ["Ошибка при добавлении данных в таблицу."], raised := none }

/-- Source lines 78–142: processing of an (already obtained) user message
text — field extraction followed by the ledger step. -/
def processText (env : Env) (user_message : String) : Effects :=
  ledgerStep env (extractRecord env user_message)

/-- An inbound message: plain text, or a voice attachment whose recognition
outcome is the given speech-API result list. -/
inductive Message where
  | text : String → Message
  | voice : List SpeechResult → Message

/-- `handle_message` (source lines 63–142).  For a voice message the
transcript is computed first; `if not user_message` (line 71) treats both
`None` and the empty string as unrecognized, replying with the fixed
message and returning.  An exception from `transcribe_audio` propagates
(there is no `try` around it). -/
def handle_message (env : Env) (msg : Message) : Effects :=
  match msg with
  | Message.voice results =>
    match transcribe_audio results with
    | Except.error ex =>
      { llmCalled := false, appendCalls := [], replies := [], raised := some ex }
    | Except.ok user_message =>
      match user_message with
      | none =>
        { llmCalled := false, appendCalls := [],
          replies := ["Не удалось распознать голосовое сообщение."], raised := none }
      | some t =>
        if t = "" then
          { llmCalled := false, appendCalls := [],
            replies := ["Не удалось распознать голосовое сообщение."], raised := none }
        else processText env t
  | Message.text t => processText env t

/-- The degraded Entry of source lines 115 and 123: the given text as the
description, the sentinel everywhere else. -/
def fallbackEntry (s : String) : Entry :=
  { description := Json.str s, client_name := Json.str "-",
    time_spent := Json.str "-", amount := Json.str "-" }

/-- The user-message text reaching line 78, when the handler proceeds past
the voice checks (source lines 64–76). -/
def effectiveText : Message → Option String
  | Message.text t => some t
  | Message.voice results =>
    match transcribe_audio results with
    | Except.ok (some t) => if t = "" then none else some t
    | _ => none

/-- A demonstration environment: the language-model call raises. -/
def envDemoErr : Env :=
  { loads := fun _ => none, llm := Except.error "APIConnectionError",
    appendOk := true, now := "2024-01-01 12:00:00" }

/-- A demonstration environment: the spreadsheet append raises `APIError`
and the model reply is not valid JSON. -/
def envDemoAppendFail : Env :=
  { loads := fun _ => none, llm := Except.ok "prose, not JSON",
    appendOk := false, now := "2024-01-01 12:00:00" }

/-- A demonstration environment: the model replies `null`, which is valid
JSON but not a JSON object. -/
def envDemoNull : Env :=
  { loads := fun s => if s = "null" then some Json.null else none,
    llm := Except.ok "null", appendOk := true, now := "2024-01-01 12:00:00" }

/-- A demonstration environment: the model reply decodes to an object that
is missing three of the four keys and carries an extra key. -/
def envDemoObj : Env :=
  { loads := fun s =>
      if s = "J" then some (Json.obj [("client", Json.str "Иван"), ("extra", Json.num 7)])
      else none,
    llm := Except.ok "J", appendOk := true, now := "2024-01-01 12:00:00" }

/-- A demonstration environment: a well-behaved model reply carrying all
four keys as strings. -/
def envDemoFull : Env :=
  { loads := fun s =>
      if s = "J" then
        some (Json.obj [("description", Json.str "написал лендинг"), ("client", Json.str "Иван"),
                        ("time_spent", Json.str "2 часа"), ("amount", Json.str "500")])
      else none,
    llm := Except.ok "J", appendOk := true, now := "2024-01-01 12:00:00" }

/-- A demonstration environment: the decoded object carries the number 500
as the value of the key time_spent. -/
def envDemoNum : Env :=
  { loads := fun s =>
      if s = "J" then
        some (Json.obj [("description", Json.str "d"), ("client", Json.str "c"),
                        ("time_spent", Json.num 500), ("amount", Json.str "500")])
      else none,
    llm := Except.ok "J", appendOk := true, now := "2024-01-01 12:00:00" }

/-- The property asserted by claim C1 for one run on text message `M`: the
extracted record either (1) comes, via the field extraction of lines
117–120, from a valid-JSON model reply, or (2) is the raw-reply fallback
when the reply is not valid JSON, or (3) is the raw-message fallback when
the model call itself failed; and in every case the pipeline continues to
the ledger step (exactly one append call). -/
def C1ClaimProp (env : Env) (M : String) : Prop :=
  ((∃ reply j, env.llm = Except.ok reply ∧ env.loads reply = some j ∧
      extract_fields j = Except.ok (extractRecord env M)) ∨
   (∃ reply, env.llm = Except.ok reply ∧ env.loads reply = none ∧
      extractRecord env M = fallbackEntry reply) ∨
   ((∃ e, env.llm = Except.error e) ∧ extractRecord env M = fallbackEntry M)) ∧
  (processText env M).appendCalls.length = 1

/-- The amended property for claim C1: case (1) holds only for replies
decoding to a JSON object, and a fourth case covers replies that are valid
JSON but not an object, where the field extraction raises and the record is
the raw-message fallback. -/
def C1AmendedProp (env : Env) (M : String) : Prop :=
  ((∃ reply kvs, env.llm = Except.ok reply ∧ env.loads reply = some (Json.obj kvs) ∧
      extract_fields (Json.obj kvs) = Except.ok (extractRecord env M)) ∨
   (∃ reply, env.llm = Except.ok reply ∧ env.loads reply = none ∧
      extractRecord env M = fallbackEntry reply) ∨
   (∃ reply j, env.llm = Except.ok reply ∧ env.loads reply = some j ∧
      (∀ kvs, j ≠ Json.obj kvs) ∧ extractRecord env M = fallbackEntry M) ∨
   ((∃ e, env.llm = Except.error e) ∧ extractRecord env M = fallbackEntry M)) ∧
  (processText env M).appendCalls.length = 1

/-- Every branch of the ledger step makes exactly one `append_row` call,
whose argument is the five fields in fixed order. -/
theorem ledgerStep_appendCalls (env : Env) (e : Entry) :
    (ledgerStep env e).appendCalls =
      [[Json.str env.now, e.description, e.client_name, e.time_spent, e.amount]] := by
  unfold ledgerStep
  repeat' split
  all_goals rfl

/-- C3: when transcription yields no result, the handler replies with the
fixed recognition-failure message and stops: the language model is never
called and no append is made. -/
theorem claim_C3 (env : Env) (results : List SpeechResult)
    (h : transcribe_audio results = Except.ok none) :
    handle_message env (Message.voice results) =
      { llmCalled := false, appendCalls := [],
        replies := ["Не удалось распознать голосовое сообщение."], raised := none } := by
  simp only [handle_message, h]

theorem claim_C3_witness :
    transcribe_audio [] = Except.ok none ∧
    handle_message envDemoErr (Message.voice []) =
      { llmCalled := false, appendCalls := [],
        replies := ["Не удалось распознать голосовое сообщение."], raised := none } :=
  ⟨rfl, claim_C3 envDemoErr [] rfl⟩

/-- C10: a voice message transcribed to the empty string is treated exactly
like one with no recognition result: the handler stops with the fixed
recognition-failure reply, and neither the language model nor the append is
invoked. -/
theorem claim_C10 (env : Env) (results : List SpeechResult)
    (h : transcribe_audio results = Except.ok (some "")) :
    handle_message env (Message.voice results) =
      { llmCalled := false, appendCalls := [],
        replies := ["Не удалось распознать голосовое сообщение."], raised := none } := by
  simp only [handle_message, h]
  rfl

theorem claim_C10_witness :
    transcribe_audio [{ alternatives := [{ transcript := "" }] }] = Except.ok (some "") ∧
    handle_message envDemoErr
        (Message.voice [{ alternatives := [{ transcript := "" }] }]) =
      { llmCalled := false, appendCalls := [],
        replies := ["Не удалось распознать голосовое сообщение."], raised := none } :=
  ⟨rfl, claim_C10 envDemoErr [{ alternatives := [{ transcript := "" }] }] rfl⟩

/-- C7: a voice message whose transcription yields a non-empty text `T` is
processed, from field extraction onward, exactly like a text message with
content `T`: the resulting effects are equal. -/
theorem claim_C7 (env : Env) (results : List SpeechResult) (T : String)
    (h : transcribe_audio results = Except.ok (some T)) (hT : T ≠ "") :
    handle_message env (Message.voice results) = handle_message env (Message.text T) := by
  simp only [handle_message, h, hT, if_false, if_neg hT]

theorem claim_C7_witness :
    transcribe_audio [{ alternatives := [{ transcript := "привет" }] }] =
      Except.ok (some "привет") ∧
    ("привет" : String) ≠ "" ∧
    handle_message envDemoErr (Message.voice [{ alternatives := [{ transcript := "привет" }] }]) =
      handle_message envDemoErr (Message.text "привет") :=
  ⟨rfl, by decide,
    claim_C7 envDemoErr [{ alternatives := [{ transcript := "привет" }] }] "привет" rfl
      (by decide)⟩

/-- C6: when the language-model call itself raises, the handler degrades to
the record whose description is the raw user message with the sentinel in
the other three fields, and the pipeline still reaches the ledger step: the
append is called with exactly that record. -/
theorem claim_C6 (env : Env) (M : String) (e : String)
    (h : env.llm = Except.error e) :
    extractRecord env M = fallbackEntry M ∧
    (processText env M).appendCalls =
      [[Json.str env.now, Json.str M, Json.str "-", Json.str "-", Json.str "-"]] := by
  have hrec : extractRecord env M = fallbackEntry M := by
    unfold extractRecord
    rw [h]
    rfl
  refine ⟨hrec, ?_⟩
  unfold processText
  rw [hrec]
  exact ledgerStep_appendCalls env (fallbackEntry M)

theorem claim_C6_witness :
    envDemoErr.llm = Except.error "APIConnectionError" ∧
    extractRecord envDemoErr "оплатил хостинг" = fallbackEntry "оплатил хостинг" ∧
    (processText envDemoErr "оплатил хостинг").appendCalls =
      [[Json.str "2024-01-01 12:00:00", Json.str "оплатил хостинг",
        Json.str "-", Json.str "-", Json.str "-"]] :=
  ⟨rfl,
    (claim_C6 envDemoErr "оплатил хостинг" "APIConnectionError" rfl).1,
    (claim_C6 envDemoErr "оплатил хостинг" "APIConnectionError" rfl).2⟩

/-- When the spreadsheet append raises, the text-processing step sends the
fixed error reply after exactly one append attempt, and nothing escapes. -/
theorem processText_appendFail (env : Env) (M : String) (hfail : env.appendOk = false) :
    processText env M =
      { llmCalled := true,
        appendCalls := [[Json.str env.now, (extractRecord env M).description,
          (extractRecord env M).client_name, (extractRecord env M).time_spent,
          (extractRecord env M).amount]],
        replies := ["Ошибка при добавлении данных в таблицу."], raised := none } := by
  unfold processText ledgerStep
  simp [hfail]

/-- C2: every row that the handler passes to `append_row` has exactly five
fields in the fixed order timestamp, description, client_name, time_spent,
amount — namely the timestamp followed by the four fields extracted from
the effective message text. -/
theorem claim_C2 (env : Env) (msg : Message) (row : List Json)
    (hrow : row ∈ (handle_message env msg).appendCalls) :
    ∃ M, effectiveText msg = some M ∧
      row = [Json.str env.now, (extractRecord env M).description,
             (extractRecord env M).client_name, (extractRecord env M).time_spent,
             (extractRecord env M).amount] := by
  cases msg with
  | text t =>
    refine ⟨t, rfl, ?_⟩
    have h := ledgerStep_appendCalls env (extractRecord env t)
    simp only [handle_message, processText, h, List.mem_singleton] at hrow
    exact hrow
  | voice results =>
    cases htr : transcribe_audio results with
    | error ex =>
      simp only [handle_message, htr] at hrow
      exact absurd hrow (List.not_mem_nil row)
    | ok o =>
      cases o with
      | none =>
        simp only [handle_message, htr] at hrow
        exact absurd hrow (List.not_mem_nil row)
      | some t =>
        by_cases ht : t = ""
        · subst ht
          simp only [handle_message, htr, if_pos rfl] at hrow
          exact absurd hrow (List.not_mem_nil row)
        · refine ⟨t, ?_, ?_⟩
          · simp [effectiveText, htr, ht]
          · have h := ledgerStep_appendCalls env (extractRecord env t)
            simp only [handle_message, htr, if_neg ht, processText, h,
              List.mem_singleton] at hrow
            exact hrow

theorem claim_C2_witness :
    [Json.str "2024-01-01 12:00:00", Json.str "hi", Json.str "-", Json.str "-", Json.str "-"] ∈
      (handle_message envDemoErr (Message.text "hi")).appendCalls ∧
    ∃ M, effectiveText (Message.text "hi") = some M ∧
      [Json.str "2024-01-01 12:00:00", Json.str "hi", Json.str "-", Json.str "-", Json.str "-"] =
        [Json.str envDemoErr.now, (extractRecord envDemoErr M).description,
         (extractRecord envDemoErr M).client_name, (extractRecord envDemoErr M).time_spent,
         (extractRecord envDemoErr M).amount] :=
  ⟨List.mem_singleton_self _,
    claim_C2 envDemoErr (Message.text "hi") _ (List.mem_singleton_self _)⟩

/-- C5: whenever the append fails and the handler reached the append at
all, the user receives exactly the fixed table-error string, the append was
attempted exactly once (no retry), and the handler finishes without sending
a confirmation and without an escaping exception. -/
theorem claim_C5 (env : Env) (msg : Message) (hfail : env.appendOk = false)
    (hcall : (handle_message env msg).appendCalls ≠ []) :
    (handle_message env msg).replies = ["Ошибка при добавлении данных в таблицу."] ∧
    (handle_message env msg).appendCalls.length = 1 ∧
    (handle_message env msg).raised = none := by
  cases msg with
  | text t =>
    rw [show handle_message env (Message.text t) = processText env t from rfl,
      processText_appendFail env t hfail]
    exact ⟨rfl, rfl, rfl⟩
  | voice results =>
    cases htr : transcribe_audio results with
    | error ex =>
      simp only [handle_message, htr] at hcall
      exact absurd rfl hcall
    | ok o =>
      cases o with
      | none =>
        simp only [handle_message, htr] at hcall
        exact absurd rfl hcall
      | some t =>
        by_cases ht : t = ""
        · subst ht
          simp only [handle_message, htr, if_pos rfl] at hcall
          exact absurd rfl hcall
        · simp only [handle_message, htr, if_neg ht]
          rw [processText_appendFail env t hfail]
          exact ⟨rfl, rfl, rfl⟩

theorem claim_C5_witness :
    envDemoAppendFail.appendOk = false ∧
    (handle_message envDemoAppendFail (Message.text "hi")).appendCalls ≠ [] ∧
    ((handle_message envDemoAppendFail (Message.text "hi")).replies =
        ["Ошибка при добавлении данных в таблицу."] ∧
      (handle_message envDemoAppendFail (Message.text "hi")).appendCalls.length = 1 ∧
      (handle_message envDemoAppendFail (Message.text "hi")).raised = none) :=
  ⟨rfl, List.cons_ne_nil _ _,
    claim_C5 envDemoAppendFail (Message.text "hi") rfl (List.cons_ne_nil _ _)⟩

/-- C9: when the model reply decodes to a JSON object, each of the four
keys is looked up with default sentinel (missing keys become the sentinel,
extra keys are ignored: the record is determined by the four lookups
alone); when the reply decodes to valid JSON that is not an object, the
`.get` attribute error sends the run into the outer exception branch, so
the record is the raw-message fallback. -/
theorem claim_C9 (env : Env) (M reply : String) (hllm : env.llm = Except.ok reply) :
    (∀ kvs, env.loads reply = some (Json.obj kvs) →
      extractRecord env M =
        { description := dictGet kvs "description" (Json.str "-"),
          client_name := dictGet kvs "client" (Json.str "-"),
          time_spent := dictGet kvs "time_spent" (Json.str "-"),
          amount := dictGet kvs "amount" (Json.str "-") }) ∧
    (∀ j, env.loads reply = some j → (∀ kvs, j ≠ Json.obj kvs) →
      extractRecord env M = fallbackEntry M) := by
  constructor
  · intro kvs hk
    simp only [extractRecord, hllm, hk, extract_fields]
  · intro j hj hno
    simp only [extractRecord, hllm, hj]
    cases j with
    | obj kvs => exact absurd rfl (hno kvs)
    | null => rfl
    | bool b => rfl
    | num n => rfl
    | str s => rfl
    | arr xs => rfl

theorem claim_C9_witness :
    envDemoObj.llm = Except.ok "J" ∧
    envDemoObj.loads "J" = some (Json.obj [("client", Json.str "Иван"), ("extra", Json.num 7)]) ∧
    extractRecord envDemoObj "msg" =
      { description := Json.str "-", client_name := Json.str "Иван",
        time_spent := Json.str "-", amount := Json.str "-" } :=
  ⟨rfl, rfl, by
    rw [(claim_C9 envDemoObj "msg" "J" rfl).1
      [("client", Json.str "Иван"), ("extra", Json.num 7)] rfl]
    rfl⟩

/-- C8: a valid JSON-object reply whose time_spent value is the number 500
makes the handler append the row and then raise `AttributeError` at the
`.strip()` call while building the reply, so the row is stored but the user
receives neither a confirmation nor the append-failure error message. -/
theorem claim_C8 :
    (handle_message envDemoNum (Message.text "m")).appendCalls =
      [[Json.str "2024-01-01 12:00:00", Json.str "d", Json.str "c", Json.num 500,
        Json.str "500"]] ∧
    (handle_message envDemoNum (Message.text "m")).replies = [] ∧
    (handle_message envDemoNum (Message.text "m")).raised = some "AttributeError" :=
  ⟨rfl, rfl, rfl⟩

/-- The strip condition on a string value never raises and is true exactly
when the string differs from the sentinel and trims to non-empty. -/
theorem stripCheck_str (s : String) :
    stripCheck (Json.str s) = Except.ok (!(s == "-") && (s.trim != "")) := by
  unfold stripCheck
  by_cases h : s = "-" <;> simp [h]

/-- C4: when the append succeeds and the extracted time_spent and amount
are strings, the single reply equals the timestamp, description and client
lines followed by the time line exactly when time_spent is neither the
sentinel nor whitespace-only, and the amount line exactly when amount is
neither the sentinel nor whitespace-only; no exception escapes. -/
theorem claim_C4 (env : Env) (M : String) (d c : Json) (ts am : String)
    (hrec : extractRecord env M =
      { description := d, client_name := c, time_spent := Json.str ts,
        amount := Json.str am })
    (happ : env.appendOk = true) :
    (processText env M).replies =
      ["📆 " ++ env.now ++ "\n💬 " ++ pyStr d ++ "\n🧑‍💼 " ++ pyStr c ++
        (if ts ≠ "-" ∧ ts.trim ≠ "" then "\n🕝 " ++ ts else "") ++
        (if am ≠ "-" ∧ am.trim ≠ "" then "\n💰 " ++ am else "")] ∧
    (processText env M).raised = none := by
  unfold processText
  rw [hrec]
  unfold ledgerStep
  simp only [happ, if_true, stripCheck_str, Bool.and_eq_true, Bool.not_eq_true',
    beq_eq_false_iff_ne, bne_iff_ne, pyStr]
  constructor
  · split_ifs <;> simp [String.append_assoc, String.append_empty]
  · trivial

theorem claim_C4_witness :
    extractRecord envDemoFull "msg" =
      { description := Json.str "написал лендинг", client_name := Json.str "Иван",
        time_spent := Json.str "2 часа", amount := Json.str "500" } ∧
    envDemoFull.appendOk = true ∧
    ((processText envDemoFull "msg").replies =
      ["📆 " ++ envDemoFull.now ++ "\n💬 " ++ pyStr (Json.str "написал лендинг") ++
        "\n🧑‍💼 " ++ pyStr (Json.str "Иван") ++
        (if ("2 часа" : String) ≠ "-" ∧ ("2 часа" : String).trim ≠ ""
          then "\n🕝 " ++ "2 часа" else "") ++
        (if ("500" : String) ≠ "-" ∧ ("500" : String).trim ≠ ""
          then "\n💰 " ++ "500" else "")] ∧
      (processText envDemoFull "msg").raised = none) :=
  ⟨rfl, rfl,
    claim_C4 envDemoFull "msg" (Json.str "написал лендинг") (Json.str "Иван")
      "2 часа" "500" rfl rfl⟩

/-- A decoded value that is not a JSON object has no `.get`, so the field
extraction of lines 117–120 raises. -/
theorem extract_fields_not_obj (j : Json) (h : ∀ kvs, j ≠ Json.obj kvs) :
    extract_fields j = Except.error "AttributeError" := by
  cases j <;> first | rfl | exact absurd rfl (h _)

/-- C1 (counterexample): with the model replying `null` — valid JSON that
is not an object — on message "hello", the produced record is the
raw-message fallback, which fits none of the three cases of the claim: the
reply was valid JSON but the fields do not come from it, and the model call
did not fail. -/
theorem claim_C1_counterexample : ¬ C1ClaimProp envDemoNull "hello" := by
  intro h
  rcases h.1 with ⟨reply, j, hllm, hloads, hext⟩ | ⟨reply, hllm, hloads, heq⟩ | ⟨⟨e, hllm⟩, heq⟩
  · simp only [envDemoNull] at hllm hloads
    rcases hllm with ⟨⟩
    simp at hloads
    rw [← hloads] at hext
    exact nomatch hext
  · simp only [envDemoNull] at hllm hloads
    rcases hllm with ⟨⟩
    simp at hloads
  · simp only [envDemoNull] at hllm
    exact nomatch hllm

/-- C1 (amended): for every run on a text message, the extracted record
falls into one of four cases — fields looked up from a JSON-object reply;
the raw-reply fallback on invalid JSON; the raw-message fallback when the
reply is valid JSON but not an object; or the raw-message fallback when the
model call failed — and in every case the pipeline continues to the ledger
step with exactly one append call. -/
theorem claim_C1_amended (env : Env) (M : String) : C1AmendedProp env M := by
  constructor
  · cases hllm : env.llm with
    | error e =>
      refine Or.inr (Or.inr (Or.inr ⟨⟨e, rfl⟩, ?_⟩))
      simp only [extractRecord, hllm]
      rfl
    | ok reply =>
      cases hl : env.loads reply with
      | none =>
        refine Or.inr (Or.inl ⟨reply, rfl, hl, ?_⟩)
        simp only [extractRecord, hllm, hl, extract_fields]
        rfl
      | some j =>
        by_cases hobj : ∃ kvs, j = Json.obj kvs
        · obtain ⟨kvs, rfl⟩ := hobj
          refine Or.inl ⟨reply, kvs, rfl, hl, ?_⟩
          simp only [extractRecord, hllm, hl, extract_fields]
        · have hno : ∀ kvs, j ≠ Json.obj kvs := fun kvs hk => hobj ⟨kvs, hk⟩
          refine Or.inr (Or.inr (Or.inl ⟨reply, j, rfl, hl, hno, ?_⟩))
          simp only [extractRecord, hllm, hl, extract_fields_not_obj j hno]
          rfl
  · have h := ledgerStep_appendCalls env (extractRecord env M)
    simp [processText, h]
